import Mathlib

/-!
Verification development for the yourtwin-ml serving and lifecycle layer.

Shallow embedding of:
- src/yourtwin-ml/src/data/feature_extractor.py (FeatureExtractor)
- src/yourtwin-ml/src/inference/model_inference.py (ModelInference)
- src/yourtwin-ml/src/utils/model_registry.py (ModelRegistry)

Numeric values are modelled as exact rationals (ℚ); Python dicts whose key
sets vary at runtime are modelled as association lists in insertion order,
which is the iteration order of a Python dict.  Display-only rounding
(Python's round(x, 3) in returned payloads) is omitted: every claim below is
about the values computed before display formatting.
-/

/-! ## Python-dict helpers (association lists in insertion order) -/

/-- `d.get(key, default)` on a Python dict. -/
def dictGet {α : Type} : List (String × α) → String → Option α
  | [], _ => none
  | (k, v) :: rest, key => if k = key then some v else dictGet rest key

/-- `d.get(key, default)` with a default value. -/
def dictGetD {α : Type} (d : List (String × α)) (key : String) (dflt : α) : α :=
  (dictGet d key).getD dflt

/-- `d[key] = v` on a Python dict: overwrite in place if the key exists
(keeping its position), else append. -/
def dictSet {α : Type} : List (String × α) → String → α → List (String × α)
  | [], key, v => [(key, v)]
  | (k, w) :: rest, key, v =>
      if k = key then (k, v) :: rest else (k, w) :: dictSet rest key v

/-- The key list of a dict. -/
def dictKeys {α : Type} (d : List (String × α)) : List String :=
  d.map Prod.fst

/-! ## FeatureExtractor embedding -/

/-- One feature group (`behavioral`, `performance`, ...): a Python dict from
feature name to numeric value. -/
def FeatureGroup : Type := List (String × ℚ)

/-- `FeatureExtractor.FEATURE_DEFINITIONS`: (category, name, min, max,
default-when-missing), in declaration order. -/
def FEATURE_DEFINITIONS : List (String × String × ℚ × ℚ × ℚ) :=
  [("behavioral", "avg_typing_speed", 0, 300, 80),
   ("behavioral", "avg_thinking_pause", 0, 60, 5),
   ("behavioral", "paste_frequency", 0, 1, 0.1),
   ("behavioral", "active_time_percentage", 0, 100, 80),
   ("behavioral", "tab_switch_rate", 0, 50, 5),
   ("behavioral", "idle_time_percentage", 0, 100, 10),
   ("behavioral", "error_frequency", 0, 1, 0.3),
   ("performance", "success_rate", 0, 100, 50),
   ("performance", "avg_score", 0, 100, 50),
   ("performance", "difficulty_level", 0, 3, 1),
   ("performance", "time_per_problem", 0, 120, 30),
   ("performance", "attempt_count", 1, 20, 2),
   ("performance", "completion_rate", 0, 100, 50),
   ("ai_interaction", "hint_request_rate", 0, 1, 0.3),
   ("ai_interaction", "avg_hint_level", 1, 5, 2),
   ("ai_interaction", "ai_dependency_score", 0, 1, 0.3),
   ("ai_interaction", "hints_before_success", 0, 10, 1),
   ("ai_interaction", "comprehension_pass_rate", 0, 100, 80),
   ("temporal", "session_duration", 0, 180, 60),
   ("temporal", "days_since_last_session", 0, 30, 1),
   ("temporal", "learning_velocity", 0, 100, 50),
   ("temporal", "weekly_sessions", 0, 7, 2)]

/-- `FeatureExtractor._normalize(value, min_val, max_val)`. -/
def FeatureExtractor.normalize (value min_val max_val : ℚ) : ℚ :=
  if max_val = min_val then 0.5
  else max 0 (min 1 ((value - min_val) / (max_val - min_val)))

/-- `FeatureExtractor._calculate_paste_frequency(records)` on the empty
record list: returns the constant `0.1`. -/
def calculate_paste_frequency_empty : ℚ := 0.1

/-- The behavioral dict returned by `_extract_behavioral_features` when there
are no monitoring records and the twin document is absent (`twin = {}`, so
every `behavioral_data.get` takes its default). -/
def behavioral_fallback : FeatureGroup :=
  [("avg_typing_speed", 80),
   ("avg_thinking_pause", 5),
   ("paste_frequency", calculate_paste_frequency_empty),
   ("active_time_percentage", 80),
   ("tab_switch_rate", 5),
   ("idle_time_percentage", 10),
   ("error_frequency", 0.3)]

/-- The performance dict returned by `_extract_performance_features` when
there are no submissions in the window. -/
def performance_fallback : FeatureGroup :=
  [("success_rate", 50),
   ("avg_score", 50),
   ("difficulty_level", 1),
   ("time_per_problem", 30),
   ("attempt_count", 1),
   ("completion_rate", 50)]

/-- The AI-interaction dict returned by `_extract_ai_features` when there are
no hint requests and the twin document is absent. -/
def ai_interaction_fallback : FeatureGroup :=
  [("hint_request_rate", 0.3),
   ("avg_hint_level", 2),
   ("ai_dependency_score", 0.3),
   ("hints_before_success", 1),
   ("comprehension_pass_rate", 80)]

/-- The temporal dict returned by `_extract_temporal_features` when there are
no submissions in the window and the twin document is absent. -/
def temporal_fallback : FeatureGroup :=
  [("session_duration", 60),
   ("days_since_last_session", 7),
   ("learning_velocity", 50),
   ("weekly_sessions", 2)]

/-- The dict value `_extract_X_features` produced for category `cat` on the
all-data-missing path (no windowed records, no twin document). -/
def fallback_group (cat : String) : FeatureGroup :=
  if cat = "behavioral" then behavioral_fallback
  else if cat = "performance" then performance_fallback
  else if cat = "ai_interaction" then ai_interaction_fallback
  else if cat = "temporal" then temporal_fallback
  else []

/-- The feature dictionary assembled by `extract_student_features`: the four
named groups (the flat normalized vector is derived from them and not needed
by any claim below). -/
structure Features : Type where
  behavioral : FeatureGroup
  performance : FeatureGroup
  ai_interaction : FeatureGroup
  temporal : FeatureGroup

/-- `extract_student_features` output for a resolvable student with no
windowed records and no twin document: extraction succeeds and every group is
its fallback dict.  (The only raising path in the Python function is
`ObjectId(student_id)` failing to resolve the identity, before any data
access.) -/
def extract_no_data : Features :=
  { behavioral := behavioral_fallback
    performance := performance_fallback
    ai_interaction := ai_interaction_fallback
    temporal := temporal_fallback }

/-! ## ModelInference embedding: result payloads -/

/-- One entry of the `factors` list built by `_identify_factors` (the
`value` field's display-string formatting is kept as the underlying
number). -/
structure Factor : Type where
  name : String
  impact : String
  value : ℚ
deriving DecidableEq

/-- The payload returned by `predict_success` paths (`_predict_with_heuristics`,
`_predict_with_model` and `_default_prediction` all populate these keys;
`model_version` is present on every prediction path). -/
structure PredictionResult : Type where
  probability : ℚ
  confidence : ℚ
  factors : List Factor
  risk_level : String
  model_version : String
deriving DecidableEq

/-- One entry of the `anomalies` list in `_detect_with_heuristics` /
`_detect_with_model`. -/
structure AnomalyItem : Type where
  anomaly_type : String
  severity : String
  value : ℚ
deriving DecidableEq

/-- The payload returned by `detect_anomalies` paths.  `model_version` is
`Option String` because `_default_anomaly_result` builds its dict WITHOUT a
`model_version` key, while the heuristic and trained paths add one. -/
structure AnomalyResult : Type where
  is_anomalous : Bool
  score : ℚ
  types : List AnomalyItem
  recommendations : List String
  model_version : Option String
deriving DecidableEq

/-- The payload returned by `get_optimal_path` paths.  As with anomalies,
`_default_learning_path` builds its dict without a `model_version` key, so
that field is an `Option`; `estimated_time` is `None` in the default dict. -/
structure PathResult : Type where
  activities : List ℕ
  reasoning : String
  recommended_difficulty : Option String
  estimated_time : Option ℚ
  model_version : Option String
deriving DecidableEq

/-- The payload returned by `get_personalized_hint` (the `student_profile`
sub-dict is present on the non-default path only). -/
structure HintResult : Type where
  suggested_level : ℤ
  reasoning : String
  encourage_independence : Bool
  student_profile : Option (ℚ × ℚ × ℚ)
deriving DecidableEq

/-! ## ModelInference embedding: defaults and helpers -/

/-- `ModelInference._default_prediction()`. -/
def default_prediction : PredictionResult :=
  { probability := 0.5
    confidence := 0.0
    factors := []
    risk_level := "unknown"
    model_version := "default" }

/-- `ModelInference._default_anomaly_result()` — note: no `model_version`
key in the returned dict. -/
def default_anomaly_result : AnomalyResult :=
  { is_anomalous := false
    score := 0.0
    types := []
    recommendations := []
    model_version := none }

/-- `ModelInference._default_learning_path()` — note: no `model_version`
key in the returned dict; `estimated_time` is `None`. -/
def default_learning_path : PathResult :=
  { activities := []
    reasoning := "Insufficient data for personalized recommendations"
    recommended_difficulty := none
    estimated_time := none
    model_version := none }

/-- `ModelInference._default_hint_suggestion()`. -/
def default_hint_suggestion : HintResult :=
  { suggested_level := 2
    reasoning := "Using default hint level"
    encourage_independence := false
    student_profile := none }

/-- `ModelInference._get_risk_level(probability)`. -/
def get_risk_level (probability : ℚ) : String :=
  if probability ≥ 0.8 then "low"
  else if probability ≥ 0.5 then "medium"
  else "high"

/-- `ModelInference._calculate_confidence(features)`:
`min((len(behavioral) + len(performance)) / 20, 1.0)`. -/
def calculate_confidence (f : Features) : ℚ :=
  min ((f.behavioral.length + f.performance.length : ℚ) / 20) 1.0

/-- `ModelInference._identify_factors(features, probability)`. -/
def identify_factors (f : Features) : List Factor :=
  let success_rate := dictGetD f.performance "success_rate" 50
  let ai_dep := dictGetD f.ai_interaction "ai_dependency_score" 0.3
  (if success_rate ≥ 70 then
    [{ name := "High Success Rate", impact := "positive", value := success_rate }]
   else if success_rate < 40 then
    [{ name := "Low Success Rate", impact := "negative", value := success_rate }]
   else []) ++
  (if ai_dep > 0.6 then
    [{ name := "High AI Dependency", impact := "negative", value := ai_dep }]
   else if ai_dep < 0.2 then
    [{ name := "Independent Learner", impact := "positive", value := ai_dep }]
   else [])

/-- `ModelInference._generate_recommendations(anomalies)`: one advice string
per recognized anomaly type, in list order; unrecognized types contribute
nothing. -/
def generate_recommendations (anomalies : List AnomalyItem) : List String :=
  anomalies.filterMap fun a =>
    if a.anomaly_type = "high_paste_frequency" then
      some "Try solving problems without copying code from external sources"
    else if a.anomaly_type = "excessive_tab_switches" then
      some "Stay focused on the current problem before switching contexts"
    else if a.anomaly_type = "high_ai_dependency" then
      some "Challenge yourself by attempting problems before requesting hints"
    else if a.anomaly_type = "low_performance" then
      some "Consider reviewing fundamentals or trying easier problems first"
    else if a.anomaly_type = "extended_inactivity" then
      some "Regular practice helps maintain skills - try to code more frequently"
    else none

/-! ## ModelInference embedding: heuristic computations -/

/-- `ModelInference._predict_with_heuristics(features)`.  `mv` is
`self.model_versions.get('behavior_prediction', 'heuristic-v1')`, the
version tag of the current behavior binding. -/
def predict_with_heuristics (mv : String) (f : Features) : PredictionResult :=
  let success_rate := dictGetD f.performance "success_rate" 50 / 100
  let avg_score := dictGetD f.performance "avg_score" 50 / 100
  let ai_dependency := dictGetD f.ai_interaction "ai_dependency_score" 0.3
  let learning_velocity := dictGetD f.temporal "learning_velocity" 50 / 100
  let days_since := min (dictGetD f.temporal "days_since_last_session" 7 / 7) 1
  let probability :=
    0.30 * success_rate +
    0.25 * avg_score +
    0.15 * (1 - ai_dependency) +
    0.20 * learning_velocity +
    0.10 * (1 - days_since)
  let clamped := max 0.0 (min 1.0 probability)
  { probability := clamped
    confidence := calculate_confidence f
    factors := identify_factors f
    risk_level := get_risk_level clamped
    model_version := mv }

/-- The accumulated `total_score` of `_detect_with_heuristics`. -/
def anomaly_total_score (f : Features) : ℚ :=
  (if dictGetD f.behavioral "paste_frequency" 0 > 5 then 0.3 else 0) +
  (if dictGetD f.behavioral "tab_switch_rate" 0 > 20 then 0.3 else 0) +
  (if dictGetD f.ai_interaction "ai_dependency_score" 0 > 0.7 then 0.2 else 0) +
  (if dictGetD f.performance "success_rate" 50 < 30 then 0.4 else 0) +
  (if dictGetD f.temporal "days_since_last_session" 0 > 14 then 0.3 else 0)

/-- The `anomalies` list of `_detect_with_heuristics`, in append order. -/
def anomaly_items (f : Features) : List AnomalyItem :=
  let paste_freq := dictGetD f.behavioral "paste_frequency" 0
  let tab_switches := dictGetD f.behavioral "tab_switch_rate" 0
  let ai_dep := dictGetD f.ai_interaction "ai_dependency_score" 0
  let success_rate := dictGetD f.performance "success_rate" 50
  let days_since := dictGetD f.temporal "days_since_last_session" 0
  (if paste_freq > 5 then
    [{ anomaly_type := "high_paste_frequency", severity := "medium", value := paste_freq }]
   else []) ++
  (if tab_switches > 20 then
    [{ anomaly_type := "excessive_tab_switches", severity := "medium", value := tab_switches }]
   else []) ++
  (if ai_dep > 0.7 then
    [{ anomaly_type := "high_ai_dependency", severity := "low", value := ai_dep }]
   else []) ++
  (if success_rate < 30 then
    [{ anomaly_type := "low_performance", severity := "high", value := success_rate }]
   else []) ++
  (if days_since > 14 then
    [{ anomaly_type := "extended_inactivity", severity := "medium", value := days_since }]
   else [])

/-- `ModelInference._detect_with_heuristics(features)`. -/
def detect_with_heuristics (f : Features) : AnomalyResult :=
  let total := anomaly_total_score f
  let anomalies := anomaly_items f
  { is_anomalous := decide (total ≥ 0.5)
    score := min total 1.0
    types := anomalies
    recommendations := generate_recommendations anomalies
    model_version := some "heuristic-v1" }

/-- `ModelInference._get_path_with_heuristics(features, target, n)`.
`difficulty_level` is an integer in `{0, 1, 2}` as produced by the extractor
(or the integer default `1`); the final `difficulty_names[rd]` list lookup is
written out on the indices `0`, `1`, `2` that the clamped branches produce. -/
def get_path_with_heuristics (f : Features) (num_activities : ℕ) : PathResult :=
  let difficulty_level : ℤ := Rat.floor (dictGetD f.performance "difficulty_level" 1)
  let success_rate := dictGetD f.performance "success_rate" 50
  let rd : ℤ :=
    if success_rate ≥ 80 then min (difficulty_level + 1) 2
    else if success_rate ≥ 50 then difficulty_level
    else max (difficulty_level - 1) 0
  { activities := []
    reasoning :=
      if success_rate ≥ 80 then "Strong performance - ready for harder challenges"
      else if success_rate ≥ 50 then "Steady progress - continue at current level"
      else "Building foundations - focus on basics first"
    recommended_difficulty :=
      some (if rd ≤ 0 then "easy" else if rd = 1 then "medium" else "hard")
    estimated_time := some (num_activities * 30)
    model_version := some "heuristic-v1" }

/-! ## ModelInference embedding: hint personalization -/

/-- Python `int(q)`: truncation toward zero. -/
def pyInt (q : ℚ) : ℤ :=
  if q < 0 then -Rat.floor (-q) else Rat.floor q

/-- The body of `get_personalized_hint` after successful feature extraction
(the branch ladder on `ai_dependency`, then the long-struggle and
multiple-attempt adjustments).  Display rounding of the `student_profile`
numbers is omitted. -/
def get_personalized_hint_core (f : Features) (attempt_number : ℤ)
    (time_spent : ℚ) : HintResult :=
  let ai_dependency := dictGetD f.ai_interaction "ai_dependency_score" 0.3
  let success_rate := dictGetD f.performance "success_rate" 50
  let avg_hint_level := dictGetD f.ai_interaction "avg_hint_level" 2
  let base : ℤ × Bool × String :=
    if ai_dependency > 0.6 then
      (max 1 (pyInt avg_hint_level - 1), true,
       "Encouraging independent problem-solving")
    else if ai_dependency < 0.3 ∧ success_rate > 70 then
      (min 5 (pyInt avg_hint_level + 1), false,
       "Strong independent work - full assistance available")
    else
      (pyInt avg_hint_level, false, "Standard assistance level")
  let after_time : ℤ × String :=
    if time_spent > 600 then (min (base.1 + 1) 5, "Extended struggle - offering more help")
    else (base.1, base.2.2)
  let after_attempts : ℤ × String :=
    if attempt_number ≥ 3 then
      (min (after_time.1 + 1) 5, "Multiple attempts - providing additional guidance")
    else after_time
  { suggested_level := after_attempts.1
    reasoning := after_attempts.2
    encourage_independence := base.2.1
    student_profile := some (ai_dependency, avg_hint_level, success_rate) }

/-! ## ModelInference embedding: capability methods

Each capability method wraps its whole body in `try/except` and starts with
`features = self.feature_extractor.extract_student_features(student_id)`.
The outcome of that call is modelled explicitly: it raised (`err`), returned
a falsy value (`empty`), or returned a feature dictionary (`ok`).  A call to
a bound trained predictor is an external, possibly raising computation and is
modelled as a function into `Except`; a raised error from it is caught by the
same `except` clause. -/

/-- Outcome of `extract_student_features` as observed inside the `try`. -/
inductive ExtractOutcome : Type where
  | err (msg : String)
  | empty
  | ok (f : Features)

/-- `ModelInference.predict_success`: `mv` is the bound behavior-model
version tag, `use_heuristics` the capability binding flag, `model_call` the
trained path (`_predict_with_model`). -/
def predict_success (extraction : ExtractOutcome) (mv : String)
    (use_heuristics : Bool)
    (model_call : Features → Except String PredictionResult) : PredictionResult :=
  match extraction with
  | .err _ => default_prediction
  | .empty => default_prediction
  | .ok f =>
      if use_heuristics then predict_with_heuristics mv f
      else
        match model_call f with
        | .ok r => r
        | .error _ => default_prediction

/-- `ModelInference.detect_anomalies`. -/
def detect_anomalies (extraction : ExtractOutcome) (use_heuristics : Bool)
    (model_call : Features → Except String AnomalyResult) : AnomalyResult :=
  match extraction with
  | .err _ => default_anomaly_result
  | .empty => default_anomaly_result
  | .ok f =>
      if use_heuristics then detect_with_heuristics f
      else
        match model_call f with
        | .ok r => r
        | .error _ => default_anomaly_result

/-- `ModelInference.get_optimal_path`. -/
def get_optimal_path (extraction : ExtractOutcome) (use_heuristics : Bool)
    (model_call : Features → Except String PathResult)
    (num_activities : ℕ) : PathResult :=
  match extraction with
  | .err _ => default_learning_path
  | .empty => default_learning_path
  | .ok f =>
      if use_heuristics then get_path_with_heuristics f num_activities
      else
        match model_call f with
        | .ok r => r
        | .error _ => default_learning_path

/-- `ModelInference.get_personalized_hint` (pure heuristic, no trained
path). -/
def get_personalized_hint (extraction : ExtractOutcome) (attempt_number : ℤ)
    (time_spent : ℚ) : HintResult :=
  match extraction with
  | .err _ => default_hint_suggestion
  | .empty => default_hint_suggestion
  | .ok f => get_personalized_hint_core f attempt_number time_spent

/-! ## ModelInference embedding: model loading and bindings -/

/-- The three capabilities `_load_models` binds. -/
inductive Capability : Type where
  | behavior_prediction
  | anomaly_detection
  | learning_path
deriving DecidableEq

/-- What happened when `_load_X_model` tried to bind the trained predictor
for one capability: the runtime is unavailable (`MINDSPORE_AVAILABLE` is
false), the registry has no production version, loading raised, or a model
at version `v` loaded. -/
inductive LoadResult : Type where
  | noRuntime
  | noProdVersion
  | loadError (msg : String)
  | loaded (version : String)
deriving DecidableEq

/-- `true` on every non-`loaded` outcome. -/
def load_failed : LoadResult → Bool
  | .loaded _ => false
  | _ => true

/-- The per-capability binding state: `self.model_versions[c]` and
`self.use_heuristics[c]`. -/
structure Binding : Type where
  version : String
  use_heuristics : Bool
deriving DecidableEq

/-- One `_load_X_model` body: bind the trained model on success, otherwise
fall back to the heuristic with version tag `heuristic-v1`.  Never fatal. -/
def load_capability : LoadResult → Binding
  | .loaded v => { version := v, use_heuristics := false }
  | _ => { version := "heuristic-v1", use_heuristics := true }

/-- `ModelInference._load_models`: each enabled capability is rebound from
its own load outcome; a disabled capability keeps its previous state. -/
def load_models (enabled : Capability → Bool) (outcome : Capability → LoadResult)
    (st : Capability → Binding) : Capability → Binding :=
  fun c => if enabled c then load_capability (outcome c) else st c

/-- `ModelInference.reload_models` re-runs `_load_models`. -/
def reload_models (enabled : Capability → Bool) (outcome : Capability → LoadResult)
    (st : Capability → Binding) : Capability → Binding :=
  load_models enabled outcome st

/-! ## ModelRegistry embedding

The registry index is `self.index`: a dict from model type to a dict from
version string to the version metadata (Python guarantees each dict has
unique keys; the development tracks that as an invariant rather than baking
it into the type).  Artifact-blob I/O (checkpoint write, checksum) is
external; the claims below are about index state. -/

/-- `ModelVersion` metadata as stored in the index (`created_at`, `config`
and `tags` behave exactly like `description`/`metrics` and are elided). -/
structure MVer : Type where
  version : String
  is_production : Bool
  description : String
  metrics : List (String × ℚ)
deriving DecidableEq

/-- The per-model-type slice of the index: version string → metadata. -/
def TypeIndex : Type := List (String × MVer)

/-- The whole index: model type → `TypeIndex`. -/
def Registry : Type := List (String × TypeIndex)

/-- Registry-level errors (`ValueError` messages in the Python code). -/
inductive RegError : Type where
  | unknownModelType
  | versionNotFound
  | noProductionVersion
deriving DecidableEq

/-- `ModelRegistry.MODEL_TYPES`. -/
def MODEL_TYPES : List String :=
  ["behavior", "anomaly", "learning_path", "knowledge_graph"]

/-- `self.index` as first loaded: one empty dict per known model type. -/
def init_registry : Registry := MODEL_TYPES.map fun mt => (mt, [])

/-- `self.index.get(model_type, {})` (the code guards
`if model_type not in self.index: self.index[model_type] = {}`). -/
def tixOf (reg : Registry) (model_type : String) : TypeIndex :=
  dictGetD reg model_type []

/-- `ModelRegistry.register_model` restricted to index state: rejects an
unknown model type, then UNCONDITIONALLY assigns
`self.index[model_type][version] = metadata` — an explicitly supplied
version that is already present is silently overwritten, with
`is_production` reset to `False`.  (When `version=None` the code first
generates the next patch bump; the statements below quantify over the
resolved version string, covering both cases.) -/
def register_model (reg : Registry) (model_type version : String)
    (metrics : List (String × ℚ)) (description : String) :
    Except RegError (Registry × MVer) :=
  if model_type ∈ MODEL_TYPES then
    let mv : MVer :=
      { version := version, is_production := false
        description := description, metrics := metrics }
    Except.ok
      (dictSet reg model_type (dictSet (tixOf reg model_type) version mv), mv)
  else Except.error RegError.unknownModelType

/-- The flag pass of `set_production`: `is_production = False` on every
version, then `True` on the target (with unique dict keys this is exactly
`is_production := (key == version)` entrywise). -/
def promote_flags (tix : TypeIndex) (version : String) : TypeIndex :=
  tix.map fun e => (e.1, { e.2 with is_production := decide (e.1 = version) })

/-- `ModelRegistry.set_production`: `NotFound` unless the version is indexed;
otherwise clear `is_production` on every version of the type and set it on
the target. -/
def set_production (reg : Registry) (model_type version : String) :
    Except RegError Registry :=
  if (dictGet reg model_type).isSome ∧ (dictGet (tixOf reg model_type) version).isSome then
    Except.ok (dictSet reg model_type (promote_flags (tixOf reg model_type) version))
  else Except.error RegError.versionNotFound

/-- The loop body of `get_production_version`: first indexed version whose
`is_production` flag is set. -/
def firstProd : TypeIndex → Option String
  | [] => none
  | (k, m) :: rest => if m.is_production then some k else firstProd rest

/-- `ModelRegistry.get_production_version`. -/
def get_production_version (reg : Registry) (model_type : String) : Option String :=
  firstProd (tixOf reg model_type)

/-- The version-resolution step at the top of `ModelRegistry.get_model`:
`version=None` resolves to the production version or fails with
`No production version`. -/
def resolve_version (reg : Registry) (model_type : String) :
    Option String → Except RegError String
  | some v => Except.ok v
  | none =>
      match get_production_version reg model_type with
      | some v => Except.ok v
      | none => Except.error RegError.noProductionVersion

/-- Number of versions of a type flagged as production. -/
def prod_count (tix : TypeIndex) : ℕ :=
  (tix.filter fun e => e.2.is_production).length

/-- An index operation, for stating the production-flag invariant over
arbitrary operation sequences. -/
inductive RegOp : Type where
  | register (model_type version description : String) (metrics : List (String × ℚ))
  | promote (model_type version : String)

/-- Run one operation; a raising operation leaves the index unchanged (both
Python methods raise before any mutation). -/
def apply_op (reg : Registry) : RegOp → Registry
  | RegOp.register mt v d m =>
      match register_model reg mt v m d with
      | Except.ok (reg', _) => reg'
      | Except.error _ => reg
  | RegOp.promote mt v =>
      match set_production reg mt v with
      | Except.ok reg' => reg'
      | Except.error _ => reg

/-- Run a sequence of operations from a starting index. -/
def apply_ops (reg : Registry) (ops : List RegOp) : Registry :=
  ops.foldl apply_op reg

/-! ## Dictionary lemmas -/

theorem dictGet_dictSet_self {α : Type} (d : List (String × α)) (k : String) (v : α) :
    dictGet (dictSet d k v) k = some v := by
  induction d with
  | nil => simp [dictGet, dictSet]
  | cons a rest ih =>
      obtain ⟨ka, va⟩ := a
      by_cases h : ka = k
      · subst h; simp [dictGet, dictSet]
      · simp [dictGet, dictSet, h, ih]

theorem dictGet_dictSet_ne {α : Type} (d : List (String × α)) {k k' : String}
    (v : α) (h : k' ≠ k) : dictGet (dictSet d k v) k' = dictGet d k' := by
  induction d with
  | nil => simp [dictGet, dictSet, Ne.symm h]
  | cons a rest ih =>
      obtain ⟨ka, va⟩ := a
      by_cases hk : ka = k
      · subst hk
        simp [dictGet, dictSet, Ne.symm h]
      · simp [dictGet, dictSet, hk, ih]

theorem dictKeys_cons {α : Type} (p : String × α) (d : List (String × α)) :
    dictKeys (p :: d) = p.1 :: dictKeys d := rfl

theorem dictKeys_dictSet_of_mem {α : Type} {d : List (String × α)} {k : String}
    (v : α) (h : k ∈ dictKeys d) : dictKeys (dictSet d k v) = dictKeys d := by
  induction d with
  | nil => simp [dictKeys] at h
  | cons a rest ih =>
      obtain ⟨ka, va⟩ := a
      by_cases hk : ka = k
      · subst hk; simp [dictSet, dictKeys_cons]
      · rw [dictKeys_cons] at h
        rcases List.mem_cons.mp h with h | h
        · exact absurd h.symm hk
        · simp [dictSet, hk, dictKeys_cons, ih h]

theorem dictKeys_dictSet_of_not_mem {α : Type} {d : List (String × α)} {k : String}
    (v : α) (h : k ∉ dictKeys d) : dictKeys (dictSet d k v) = dictKeys d ++ [k] := by
  induction d with
  | nil => simp [dictKeys, dictSet]
  | cons a rest ih =>
      obtain ⟨ka, va⟩ := a
      rw [dictKeys_cons] at h
      by_cases hk : ka = k
      · exact absurd (hk ▸ List.mem_cons_self ka (dictKeys rest)) h
      · have hrest : k ∉ dictKeys rest := fun hm => h (List.mem_cons_of_mem _ hm)
        simp [dictSet, hk, dictKeys_cons, ih hrest]

theorem nodup_dictKeys_dictSet {α : Type} (d : List (String × α)) (k : String)
    (v : α) (h : (dictKeys d).Nodup) : (dictKeys (dictSet d k v)).Nodup := by
  by_cases hk : k ∈ dictKeys d
  · rw [dictKeys_dictSet_of_mem v hk]; exact h
  · rw [dictKeys_dictSet_of_not_mem v hk]
    simpa [List.nodup_append] using ⟨h, hk⟩

theorem dictGet_isSome_iff_mem {α : Type} (d : List (String × α)) (k : String) :
    (dictGet d k).isSome = true ↔ k ∈ dictKeys d := by
  induction d with
  | nil => simp [dictGet, dictKeys]
  | cons a rest ih =>
      obtain ⟨ka, va⟩ := a
      by_cases hk : ka = k
      · subst hk; simp [dictGet, dictKeys]
      · simp [dictGet, dictKeys, hk, ih, Ne.symm hk]

/-! ## Registry lemmas -/

theorem prod_count_cons (a : String × MVer) (tix : TypeIndex) :
    prod_count (a :: tix) =
      (if a.2.is_production then 1 else 0) + prod_count tix := by
  by_cases h : a.2.is_production <;> simp [prod_count, List.filter, h, Nat.add_comm]

theorem prod_count_dictSet_le (tix : TypeIndex) (k : String) {mv : MVer}
    (h : mv.is_production = false) :
    prod_count (dictSet tix k mv) ≤ prod_count tix := by
  induction tix with
  | nil => simp [dictSet, prod_count, List.filter, h]
  | cons a rest ih =>
      obtain ⟨ka, va⟩ := a
      by_cases hk : ka = k
      · subst hk
        rw [show dictSet ((ka, va) :: rest) ka mv = (ka, mv) :: rest by simp [dictSet]]
        rw [prod_count_cons, prod_count_cons]
        simp only [h, Bool.false_eq_true, if_false]
        omega
      · rw [show dictSet ((ka, va) :: rest) k mv = (ka, va) :: dictSet rest k mv by
          simp [dictSet, hk]]
        rw [prod_count_cons, prod_count_cons]
        omega

theorem firstProd_eq_none_iff (tix : TypeIndex) :
    firstProd tix = none ↔ prod_count tix = 0 := by
  induction tix with
  | nil => simp [firstProd, prod_count]
  | cons a rest ih =>
      obtain ⟨ka, va⟩ := a
      by_cases h : va.is_production
      · simp [firstProd, h, prod_count_cons]
      · simp [firstProd, h, prod_count_cons, ih]

theorem firstProd_promote_flags {tix : TypeIndex} {v : String}
    (h : v ∈ dictKeys tix) : firstProd (promote_flags tix v) = some v := by
  induction tix with
  | nil => simp [dictKeys] at h
  | cons a rest ih =>
      obtain ⟨ka, va⟩ := a
      by_cases hk : ka = v
      · subst hk
        simp [promote_flags, firstProd]
      · rw [dictKeys_cons] at h
        rcases List.mem_cons.mp h with h | h
        · exact absurd h.symm hk
        · simpa [promote_flags, firstProd, hk] using ih h

theorem prod_count_promote_flags_of_not_mem {tix : TypeIndex} {v : String}
    (h : v ∉ dictKeys tix) : prod_count (promote_flags tix v) = 0 := by
  induction tix with
  | nil => simp [promote_flags, prod_count]
  | cons a rest ih =>
      obtain ⟨ka, va⟩ := a
      rw [dictKeys_cons] at h
      have hk : ka ≠ v := fun he => h (he ▸ List.mem_cons_self ka (dictKeys rest))
      have hrest : v ∉ dictKeys rest := fun hm => h (List.mem_cons_of_mem _ hm)
      simp only [promote_flags, List.map_cons] at *
      rw [prod_count_cons]
      simp [hk, ih hrest]

theorem prod_count_promote_flags_le_one (tix : TypeIndex) (v : String)
    (h : (dictKeys tix).Nodup) : prod_count (promote_flags tix v) ≤ 1 := by
  induction tix with
  | nil => simp [promote_flags, prod_count]
  | cons a rest ih =>
      obtain ⟨ka, va⟩ := a
      rw [dictKeys_cons, List.nodup_cons] at h
      by_cases hk : ka = v
      · subst hk
        simp only [promote_flags, List.map_cons] at *
        rw [prod_count_cons]
        simp only [decide_eq_true_eq] at *
        have : prod_count (promote_flags rest ka) = 0 :=
          prod_count_promote_flags_of_not_mem h.1
        simp only [promote_flags] at this
        simp [this]
      · simp only [promote_flags, List.map_cons] at *
        rw [prod_count_cons]
        have := ih h.2
        simp only [promote_flags] at this
        simp [hk]
        omega

theorem dictKeys_promote_flags (tix : TypeIndex) (v : String) :
    dictKeys (promote_flags tix v) = dictKeys tix := by
  induction tix with
  | nil => rfl
  | cons a rest ih =>
      obtain ⟨ka, va⟩ := a
      simp only [promote_flags, List.map_cons] at *
      rw [dictKeys_cons, dictKeys_cons, ih]

theorem tixOf_dictSet_self (reg : Registry) (mt : String) (tix : TypeIndex) :
    tixOf (dictSet reg mt tix) mt = tix := by
  simp [tixOf, dictGetD, dictGet_dictSet_self]

theorem tixOf_dictSet_ne (reg : Registry) {mt mt' : String} (tix : TypeIndex)
    (h : mt' ≠ mt) : tixOf (dictSet reg mt tix) mt' = tixOf reg mt' := by
  simp [tixOf, dictGetD, dictGet_dictSet_ne _ _ h]

/-- The index invariant: per model type, unique version keys and at most one
production flag. -/
def RegInv (reg : Registry) : Prop :=
  ∀ mt, (dictKeys (tixOf reg mt)).Nodup ∧ prod_count (tixOf reg mt) ≤ 1

theorem tixOf_init (mt : String) : tixOf init_registry mt = [] := by
  simp only [init_registry, MODEL_TYPES, tixOf, dictGetD, List.map_cons, dictGet]
  split_ifs <;> rfl

theorem RegInv_init : RegInv init_registry := by
  intro mt
  rw [tixOf_init]
  exact ⟨List.nodup_nil, Nat.le_of_lt Nat.one_pos⟩

theorem RegInv_apply_op (reg : Registry) (op : RegOp) (h : RegInv reg) :
    RegInv (apply_op reg op) := by
  cases op with
  | register mt v d m =>
      by_cases hmt : mt ∈ MODEL_TYPES
      · simp only [apply_op, register_model, if_pos hmt]
        intro mt'
        by_cases he : mt' = mt
        · subst he
          rw [tixOf_dictSet_self]
          exact ⟨nodup_dictKeys_dictSet _ _ _ (h mt').1,
            le_trans (prod_count_dictSet_le _ _ rfl) (h mt').2⟩
        · rw [tixOf_dictSet_ne _ _ he]
          exact h mt'
      · simpa only [apply_op, register_model, if_neg hmt] using h
  | promote mt v =>
      by_cases hc : (dictGet reg mt).isSome = true ∧ (dictGet (tixOf reg mt) v).isSome = true
      · simp only [apply_op, set_production, if_pos hc]
        intro mt'
        by_cases he : mt' = mt
        · subst he
          rw [tixOf_dictSet_self]
          exact ⟨(dictKeys_promote_flags _ _).symm ▸ (h mt').1,
            prod_count_promote_flags_le_one _ _ (h mt').1⟩
        · rw [tixOf_dictSet_ne _ _ he]
          exact h mt'
      · simpa only [apply_op, set_production, if_neg hc] using h

theorem RegInv_apply_ops (ops : List RegOp) (reg : Registry) (h : RegInv reg) :
    RegInv (apply_ops reg ops) := by
  induction ops generalizing reg with
  | nil => exact h
  | cons op rest ih => exact ih (apply_op reg op) (RegInv_apply_op reg op h)

/-! ## Claim theorems -/

/-- C2: per capability, `register_model` stores the new version with
`is_production = False`, so with no prior production version the
`version=None` resolution still fails with `NoProductionVersion`; after a
successful `set_production v` the production version resolves to `v`;
`set_production` on an unindexed version fails with `NotFound`; and after any
sequence of register/promote operations at most one version per capability
is flagged as production. -/
theorem registry_promotion_lifecycle :
    (∀ reg mt v m d reg' mvout, register_model reg mt v m d = Except.ok (reg', mvout) →
      dictGet (tixOf reg' mt) v =
        some { version := v, is_production := false, description := d, metrics := m } ∧
      (get_production_version reg mt = none →
        get_production_version reg' mt = none ∧
        resolve_version reg' mt none = Except.error RegError.noProductionVersion))
  ∧ (∀ reg mt v reg', set_production reg mt v = Except.ok reg' →
      get_production_version reg' mt = some v ∧
      resolve_version reg' mt none = Except.ok v)
  ∧ (∀ reg mt v, dictGet (tixOf reg mt) v = none →
      set_production reg mt v = Except.error RegError.versionNotFound)
  ∧ (∀ ops mt, prod_count (tixOf (apply_ops init_registry ops) mt) ≤ 1) := by
  refine ⟨?_, ?_, ?_, ?_⟩
  · intro reg mt v m d reg' mvout h
    rw [register_model] at h
    split_ifs at h with hmt
    · simp only [Except.ok.injEq, Prod.mk.injEq] at h
      obtain ⟨rfl, rfl⟩ := h
      constructor
      · rw [tixOf_dictSet_self, dictGet_dictSet_self]
      · intro hnone
        have hz : prod_count (tixOf reg mt) = 0 :=
          (firstProd_eq_none_iff _).mp hnone
        have hle : prod_count (dictSet (tixOf reg mt) v
            { version := v, is_production := false, description := d, metrics := m }) ≤ 0 :=
          hz ▸ prod_count_dictSet_le _ _ rfl
        have hz' : get_production_version
            (dictSet reg mt (dictSet (tixOf reg mt) v
              { version := v, is_production := false, description := d, metrics := m })) mt
            = none := by
          rw [get_production_version, tixOf_dictSet_self, firstProd_eq_none_iff]
          omega
        refine ⟨hz', ?_⟩
        rw [resolve_version, hz']
  · intro reg mt v reg' h
    rw [set_production] at h
    split_ifs at h with hc
    · simp only [Except.ok.injEq] at h
      subst h
      have hv : v ∈ dictKeys (tixOf reg mt) :=
        (dictGet_isSome_iff_mem _ _).mp hc.2
      have hp : get_production_version
          (dictSet reg mt (promote_flags (tixOf reg mt) v)) mt = some v := by
        rw [get_production_version, tixOf_dictSet_self]
        exact firstProd_promote_flags hv
      refine ⟨hp, ?_⟩
      rw [resolve_version, hp]
  · intro reg mt v h
    rw [set_production, if_neg]
    rintro ⟨_, h2⟩
    rw [h] at h2
    simp at h2
  · intro ops mt
    exact (RegInv_apply_ops ops init_registry RegInv_init mt).2

/-- A one-version registry index as produced by registering `v1.0.0` for the
`behavior` capability on a fresh registry. -/
def reg_demo_1 : Registry :=
  [("behavior", [("v1.0.0",
      { version := "v1.0.0", is_production := false, description := "first", metrics := [] })]),
   ("anomaly", []), ("learning_path", []), ("knowledge_graph", [])]

/-- `reg_demo_1` after promoting `v1.0.0`. -/
def reg_demo_2 : Registry :=
  [("behavior", [("v1.0.0",
      { version := "v1.0.0", is_production := true, description := "first", metrics := [] })]),
   ("anomaly", []), ("learning_path", []), ("knowledge_graph", [])]

/-- A register/promote/register/promote run for the production-flag
invariant. -/
def demo_ops : List RegOp :=
  [RegOp.register "behavior" "v1.0.0" "first" [],
   RegOp.promote "behavior" "v1.0.0",
   RegOp.register "behavior" "v1.0.1" "second" [],
   RegOp.promote "behavior" "v1.0.1"]

theorem registry_promotion_lifecycle_witness :
    (dictGet (tixOf reg_demo_1 "behavior") "v1.0.0" =
        some { version := "v1.0.0", is_production := false, description := "first", metrics := [] }
      ∧ get_production_version reg_demo_1 "behavior" = none
      ∧ resolve_version reg_demo_1 "behavior" none = Except.error RegError.noProductionVersion)
  ∧ (get_production_version reg_demo_2 "behavior" = some "v1.0.0"
      ∧ resolve_version reg_demo_2 "behavior" none = Except.ok "v1.0.0")
  ∧ set_production reg_demo_1 "behavior" "v9.9.9" = Except.error RegError.versionNotFound
  ∧ prod_count (tixOf (apply_ops init_registry demo_ops) "behavior") ≤ 1 := by
  have ha := registry_promotion_lifecycle.1 init_registry "behavior" "v1.0.0" [] "first"
    reg_demo_1
    { version := "v1.0.0", is_production := false, description := "first", metrics := [] }
    (by rfl)
  have hb := registry_promotion_lifecycle.2.1 reg_demo_1 "behavior" "v1.0.0" reg_demo_2
    (by rfl)
  have hc := registry_promotion_lifecycle.2.2.1 reg_demo_1 "behavior" "v9.9.9" (by rfl)
  have hd := registry_promotion_lifecycle.2.2.2 demo_ops "behavior"
  exact ⟨⟨ha.1, (ha.2 (by rfl)).1, (ha.2 (by rfl)).2⟩, hb, hc, hd⟩

/-- C1: the heuristic success prediction computes
`0.30·success_rate + 0.25·avg_score + 0.15·(1 − ai_dependency)
 + 0.20·learning_velocity + 0.10·(1 − min(days_since/7, 1))`
with `success_rate`, `avg_score` and `learning_velocity` divided by 100,
clamps the result to [0,1], and derives the risk tier as low when ≥ 0.8,
medium when ≥ 0.5, else high. -/
theorem heuristic_success_prediction_formula :
    ∀ (mv : String) (f : Features),
      (predict_with_heuristics mv f).probability =
        max 0 (min 1
          (0.30 * (dictGetD f.performance "success_rate" 50 / 100)
           + 0.25 * (dictGetD f.performance "avg_score" 50 / 100)
           + 0.15 * (1 - dictGetD f.ai_interaction "ai_dependency_score" 0.3)
           + 0.20 * (dictGetD f.temporal "learning_velocity" 50 / 100)
           + 0.10 * (1 - min (dictGetD f.temporal "days_since_last_session" 7 / 7) 1)))
      ∧ 0 ≤ (predict_with_heuristics mv f).probability
      ∧ (predict_with_heuristics mv f).probability ≤ 1
      ∧ (predict_with_heuristics mv f).risk_level =
          (if 0.8 ≤ (predict_with_heuristics mv f).probability then "low"
           else if 0.5 ≤ (predict_with_heuristics mv f).probability then "medium"
           else "high") := by
  intro mv f
  have hp : (predict_with_heuristics mv f).probability =
      max 0 (min 1
        (0.30 * (dictGetD f.performance "success_rate" 50 / 100)
         + 0.25 * (dictGetD f.performance "avg_score" 50 / 100)
         + 0.15 * (1 - dictGetD f.ai_interaction "ai_dependency_score" 0.3)
         + 0.20 * (dictGetD f.temporal "learning_velocity" 50 / 100)
         + 0.10 * (1 - min (dictGetD f.temporal "days_since_last_session" 7 / 7) 1))) := by
    norm_num [predict_with_heuristics]
  refine ⟨hp, hp ▸ le_max_left _ _, hp ▸ max_le (by norm_num) (min_le_left _ _), ?_⟩
  have hr : (predict_with_heuristics mv f).risk_level =
      get_risk_level (predict_with_heuristics mv f).probability := by
    simp only [predict_with_heuristics]
  rw [hr, get_risk_level]

/-- C3: every capability-level router method catches extraction and
predictor-call errors and returns its documented default; in particular
`predict_success` degrades to probability 0.5, confidence 0, no factors and
risk level `unknown`. -/
theorem capability_methods_degrade_to_defaults :
    ∀ (msg pe : String) (mv : String) (uh : Bool)
      (mc : Features → Except String PredictionResult)
      (dc : Features → Except String AnomalyResult)
      (pc : Features → Except String PathResult)
      (n : ℕ) (att : ℤ) (ts : ℚ) (f : Features),
      predict_success (ExtractOutcome.err msg) mv uh mc = default_prediction
      ∧ detect_anomalies (ExtractOutcome.err msg) uh dc = default_anomaly_result
      ∧ get_optimal_path (ExtractOutcome.err msg) uh pc n = default_learning_path
      ∧ get_personalized_hint (ExtractOutcome.err msg) att ts = default_hint_suggestion
      ∧ predict_success (ExtractOutcome.ok f) mv false
          (fun _ => Except.error pe) = default_prediction
      ∧ detect_anomalies (ExtractOutcome.ok f) false
          (fun _ => Except.error pe) = default_anomaly_result
      ∧ get_optimal_path (ExtractOutcome.ok f) false
          (fun _ => Except.error pe) n = default_learning_path
      ∧ default_prediction.probability = 0.5
      ∧ default_prediction.confidence = 0
      ∧ default_prediction.factors = []
      ∧ default_prediction.risk_level = "unknown" := by
  intro msg pe mv uh mc dc pc n att ts f
  refine ⟨rfl, rfl, rfl, rfl, ?_, ?_, ?_, rfl, by norm_num [default_prediction], rfl, rfl⟩
  · simp [predict_success]
  · simp [detect_anomalies]
  · simp [get_optimal_path]

/-- C4: `_normalize` always lands in [0,1]; with `min < max` the clamping is
exact at the boundaries (values at or below the minimum give 0, values at or
above the maximum give 1); and a degenerate `min == max` range yields exactly
0.5 instead of a division error. -/
theorem normalize_bounds_spec :
    ∀ value min_val max_val : ℚ,
      (0 ≤ FeatureExtractor.normalize value min_val max_val
        ∧ FeatureExtractor.normalize value min_val max_val ≤ 1)
      ∧ (min_val = max_val → FeatureExtractor.normalize value min_val max_val = 0.5)
      ∧ (min_val < max_val → value ≤ min_val →
          FeatureExtractor.normalize value min_val max_val = 0)
      ∧ (min_val < max_val → max_val ≤ value →
          FeatureExtractor.normalize value min_val max_val = 1) := by
  intro value min_val max_val
  by_cases h : max_val = min_val
  · refine ⟨by norm_num [FeatureExtractor.normalize, h], fun _ => by
      norm_num [FeatureExtractor.normalize, h], fun hlt _ => ?_, fun hlt _ => ?_⟩
    · exact absurd (h ▸ hlt) (lt_irrefl _)
    · exact absurd (h ▸ hlt) (lt_irrefl _)
  · have hne : FeatureExtractor.normalize value min_val max_val =
        max 0 (min 1 ((value - min_val) / (max_val - min_val))) := by
      rw [FeatureExtractor.normalize, if_neg h]
    refine ⟨⟨hne ▸ le_max_left _ _, hne ▸ max_le (by norm_num) (min_le_left _ _)⟩,
      fun he => absurd he (fun he' => h he'.symm), fun hlt hv => ?_, fun hlt hv => ?_⟩
    · have hd : 0 < max_val - min_val := sub_pos.mpr hlt
      have hq : (value - min_val) / (max_val - min_val) ≤ 0 :=
        div_nonpos_iff.mpr (Or.inr ⟨sub_nonpos.mpr hv, le_of_lt hd⟩)
      rw [hne, min_eq_right (le_trans hq zero_le_one), max_eq_left hq]
    · have hd : 0 < max_val - min_val := sub_pos.mpr hlt
      have hq : 1 ≤ (value - min_val) / (max_val - min_val) :=
        (one_le_div hd).mpr (by linarith)
      rw [hne, min_eq_left hq]
      exact max_eq_right zero_le_one

theorem normalize_bounds_spec_witness :
    FeatureExtractor.normalize 3 2 2 = 0.5
  ∧ FeatureExtractor.normalize (-5) 0 10 = 0
  ∧ FeatureExtractor.normalize 20 0 10 = 1
  ∧ (0 ≤ FeatureExtractor.normalize 7 0 10 ∧ FeatureExtractor.normalize 7 0 10 ≤ 1) :=
  ⟨(normalize_bounds_spec 3 2 2).2.1 rfl,
   (normalize_bounds_spec (-5) 0 10).2.2.1 (by norm_num) (by norm_num),
   (normalize_bounds_spec 20 0 10).2.2.2 (by norm_num) (by norm_num),
   (normalize_bounds_spec 7 0 10).1⟩

/-- C5: the heuristic anomaly detector accumulates 0.3 for paste frequency
above 5, 0.3 for tab-switch rate above 20, 0.2 for AI dependency above 0.7,
0.4 for success rate below 30 and 0.3 for more than 14 days of inactivity,
reports `is_anomalous` exactly when the total reaches 0.5 and the score as
`min(total, 1)`; the concrete profile (paste 6, tab 25, dependency 0.1,
success 50, days 1) scores 0.6, is anomalous, and reports the paste and
tab-switch anomaly types. -/
theorem heuristic_anomaly_detection_spec :
    ∀ f : Features,
      (detect_with_heuristics f).is_anomalous = decide (anomaly_total_score f ≥ 0.5)
      ∧ (detect_with_heuristics f).score = min (anomaly_total_score f) 1
      ∧ anomaly_total_score f =
          (if dictGetD f.behavioral "paste_frequency" 0 > 5 then 0.3 else 0)
          + (if dictGetD f.behavioral "tab_switch_rate" 0 > 20 then 0.3 else 0)
          + (if dictGetD f.ai_interaction "ai_dependency_score" 0 > 0.7 then 0.2 else 0)
          + (if dictGetD f.performance "success_rate" 50 < 30 then 0.4 else 0)
          + (if dictGetD f.temporal "days_since_last_session" 0 > 14 then 0.3 else 0)
      ∧ (detect_with_heuristics
          { behavioral := [("paste_frequency", 6), ("tab_switch_rate", 25)]
            performance := [("success_rate", 50)]
            ai_interaction := [("ai_dependency_score", 0.1)]
            temporal := [("days_since_last_session", 1)] }).score = 0.6
      ∧ (detect_with_heuristics
          { behavioral := [("paste_frequency", 6), ("tab_switch_rate", 25)]
            performance := [("success_rate", 50)]
            ai_interaction := [("ai_dependency_score", 0.1)]
            temporal := [("days_since_last_session", 1)] }).is_anomalous = true
      ∧ (detect_with_heuristics
          { behavioral := [("paste_frequency", 6), ("tab_switch_rate", 25)]
            performance := [("success_rate", 50)]
            ai_interaction := [("ai_dependency_score", 0.1)]
            temporal := [("days_since_last_session", 1)] }).types.map
            AnomalyItem.anomaly_type =
          ["high_paste_frequency", "excessive_tab_switches"] := by
  intro f
  refine ⟨rfl, by norm_num [detect_with_heuristics], rfl, ?_, ?_, ?_⟩
  · simp [detect_with_heuristics, anomaly_total_score, dictGetD, dictGet]
    norm_num
  · simp [detect_with_heuristics, anomaly_total_score, dictGetD, dictGet]
    norm_num
  · simp [detect_with_heuristics, anomaly_items, dictGetD, dictGet]
    norm_num

/-- C6 (amended): `register_model` with an explicitly supplied version that
is already indexed does NOT fail — there is no `VersionConflict` path — it
silently overwrites the stored metadata for that version (resetting
`is_production` to false) and rewrites the artifact. -/
theorem register_overwrites_taken_version :
    ∀ (reg : Registry) (mt v : String) (m : List (String × ℚ)) (d : String),
      mt ∈ MODEL_TYPES → v ∈ dictKeys (tixOf reg mt) →
      register_model reg mt v m d =
        Except.ok (dictSet reg mt (dictSet (tixOf reg mt) v
            { version := v, is_production := false, description := d, metrics := m }),
          { version := v, is_production := false, description := d, metrics := m })
      ∧ dictGet (tixOf (dictSet reg mt (dictSet (tixOf reg mt) v
            { version := v, is_production := false, description := d, metrics := m })) mt) v =
          some { version := v, is_production := false, description := d, metrics := m } := by
  intro reg mt v m d hmt hv
  constructor
  · rw [register_model, if_pos hmt]
  · rw [tixOf_dictSet_self, dictGet_dictSet_self]

theorem register_overwrites_taken_version_witness :
    register_model reg_demo_2 "behavior" "v1.0.0" [] "patched" =
      Except.ok (dictSet reg_demo_2 "behavior" (dictSet (tixOf reg_demo_2 "behavior") "v1.0.0"
          { version := "v1.0.0", is_production := false, description := "patched", metrics := [] }),
        { version := "v1.0.0", is_production := false, description := "patched", metrics := [] })
    ∧ dictGet (tixOf (dictSet reg_demo_2 "behavior" (dictSet (tixOf reg_demo_2 "behavior") "v1.0.0"
          { version := "v1.0.0", is_production := false, description := "patched", metrics := [] })) "behavior")
        "v1.0.0" =
        some { version := "v1.0.0", is_production := false, description := "patched", metrics := [] } :=
  register_overwrites_taken_version reg_demo_2 "behavior" "v1.0.0" [] "patched"
    (by simp [ MODEL_TYPES]) (by simp [reg_demo_2, tixOf, dictGetD, dictGet, dictKeys])

/-- C6 counterexample: registering over the taken version `v1.0.0` (here even
the production version, with metrics) succeeds and replaces the index entry
with the fresh metadata — refuting that it "fails with VersionConflict and
never overwrites". -/
theorem register_no_version_conflict_counterexample :
    register_model
      [("behavior", [("v1.0.0",
          { version := "v1.0.0", is_production := true, description := "first",
            metrics := [("accuracy", 0.9)] })]),
       ("anomaly", []), ("learning_path", []), ("knowledge_graph", [])]
      "behavior" "v1.0.0" [] "second"
    = Except.ok
        ([("behavior", [("v1.0.0",
            { version := "v1.0.0", is_production := false, description := "second",
              metrics := [] })]),
          ("anomaly", []), ("learning_path", []), ("knowledge_graph", [])],
         { version := "v1.0.0", is_production := false, description := "second",
           metrics := [] }) := by
  rfl

/-- C7 (amended): on the all-data-missing path every produced fallback value
equals the `FEATURE_DEFINITIONS` default-when-missing EXCEPT two features:
`attempt_count` (fallback 1, table default 2) and `days_since_last_session`
(fallback 7, table default 1); extraction itself still succeeds. -/
theorem fallback_defaults_match_table :
    (∀ cat name mn mx d, (cat, name, mn, mx, d) ∈ FEATURE_DEFINITIONS →
      name ≠ "attempt_count" → name ≠ "days_since_last_session" →
      dictGet (fallback_group cat) name = some d)
  ∧ dictGet (fallback_group "performance") "attempt_count" = some 1
  ∧ dictGet (fallback_group "temporal") "days_since_last_session" = some 7
  ∧ extract_no_data =
      { behavioral := fallback_group "behavioral"
        performance := fallback_group "performance"
        ai_interaction := fallback_group "ai_interaction"
        temporal := fallback_group "temporal" } := by
  refine ⟨?_, rfl, rfl, rfl⟩
  intro cat name mn mx d hmem h1 h2
  fin_cases hmem <;>
    first
      | rfl
      | exact absurd rfl h1
      | exact absurd rfl h2

theorem fallback_defaults_match_table_witness :
    dictGet (fallback_group "behavioral") "avg_typing_speed" = some 80 :=
  fallback_defaults_match_table.1 "behavioral" "avg_typing_speed" 0 300 80
    (by simp [FEATURE_DEFINITIONS]) (by simp) (by simp)

/-- C7 counterexample: `attempt_count` is declared with default-when-missing
2 in `FEATURE_DEFINITIONS`, but the no-submissions fallback dict carries 1 —
refuting that every fallback value equals the declared default. -/
theorem fallback_default_mismatch_counterexample :
    ("performance", "attempt_count", (1 : ℚ), (20 : ℚ), (2 : ℚ)) ∈ FEATURE_DEFINITIONS
    ∧ dictGet (fallback_group "performance") "attempt_count" = some 1
    ∧ (1 : ℚ) ≠ 2 := by
  refine ⟨by simp [FEATURE_DEFINITIONS], rfl, by norm_num⟩

/-- C8: when a capability's predictor load fails in any way (runtime
unavailable, no production version, or a load exception), `_load_models` /
`reload_models` binds exactly that capability to the heuristic with version
tag `heuristic-v1`; a capability's resulting binding depends only on its own
load outcome; and a disabled capability keeps its previous binding. -/
theorem load_failure_binds_heuristic_independently :
    (∀ (st : Capability → Binding) (enabled : Capability → Bool)
        (outcome : Capability → LoadResult) (c : Capability),
        enabled c = true → load_failed (outcome c) = true →
        load_models enabled outcome st c =
          { version := "heuristic-v1", use_heuristics := true })
  ∧ (∀ (st : Capability → Binding) (enabled : Capability → Bool)
        (out1 out2 : Capability → LoadResult) (c : Capability),
        out1 c = out2 c →
        load_models enabled out1 st c = load_models enabled out2 st c)
  ∧ (∀ (st : Capability → Binding) (enabled : Capability → Bool)
        (outcome : Capability → LoadResult) (c : Capability),
        enabled c = false → load_models enabled outcome st c = st c)
  ∧ (∀ (st : Capability → Binding) (enabled : Capability → Bool)
        (outcome : Capability → LoadResult) (c : Capability),
        reload_models enabled outcome st c = load_models enabled outcome st c) := by
  refine ⟨?_, ?_, ?_, fun _ _ _ _ => rfl⟩
  · intro st en out c h1 h2
    simp only [load_models, h1, if_true]
    cases hoc : out c with
    | noRuntime => rfl
    | noProdVersion => rfl
    | loadError m => rfl
    | loaded v => rw [hoc] at h2; simp [load_failed] at h2
  · intro st en o1 o2 c h
    simp [load_models, h]
  · intro st en out c h
    simp [load_models, h]

theorem load_failure_binds_heuristic_independently_witness :
    load_models (fun _ => true)
      (fun c => if c = Capability.anomaly_detection
        then LoadResult.loadError "corrupt checkpoint" else LoadResult.loaded "v2.0.0")
      (fun _ => { version := "v1.0.0", use_heuristics := false })
      Capability.anomaly_detection =
        { version := "heuristic-v1", use_heuristics := true }
  ∧ load_models (fun _ => true)
      (fun c => if c = Capability.anomaly_detection
        then LoadResult.loadError "corrupt checkpoint" else LoadResult.loaded "v2.0.0")
      (fun _ => { version := "v1.0.0", use_heuristics := false })
      Capability.behavior_prediction =
    load_models (fun _ => true) (fun _ => LoadResult.loaded "v2.0.0")
      (fun _ => { version := "v1.0.0", use_heuristics := false })
      Capability.behavior_prediction
  ∧ load_models (fun _ => false)
      (fun _ => LoadResult.loaded "v2.0.0")
      (fun _ => { version := "v1.0.0", use_heuristics := false })
      Capability.learning_path = { version := "v1.0.0", use_heuristics := false } :=
  ⟨load_failure_binds_heuristic_independently.1 _ _ _ Capability.anomaly_detection rfl rfl,
   load_failure_binds_heuristic_independently.2.1 _ _ _ _ Capability.behavior_prediction rfl,
   load_failure_binds_heuristic_independently.2.2.1 _ _ _ Capability.learning_path rfl⟩

/-- C9 (amended): the suggested hint level follows the documented shifts
(down one for AI dependency above 0.6, up one for dependency below 0.3 with
success rate above 70, plus one for time spent above 600 seconds, plus one
for three or more attempts) and lies in [1,5] WHENEVER the historical
average hint level lies in [1,5]; the middle branch leaves the truncated
average unclamped, so out-of-range averages propagate out of [1,5]. -/
theorem hint_level_bounds_spec :
    ∀ (f : Features) (att : ℤ) (ts : ℚ),
      1 ≤ dictGetD f.ai_interaction "avg_hint_level" 2 →
      dictGetD f.ai_interaction "avg_hint_level" 2 ≤ 5 →
      1 ≤ (get_personalized_hint_core f att ts).suggested_level
      ∧ (get_personalized_hint_core f att ts).suggested_level ≤ 5 := by
  intro f att ts h1 h5
  set a := dictGetD f.ai_interaction "avg_hint_level" 2 with ha
  have h0 : ¬(a < 0) := not_lt.mpr (le_trans zero_le_one h1)
  have hf1 : 1 ≤ Rat.floor a := Rat.le_floor.mpr (by exact_mod_cast h1)
  have hf5 : Rat.floor a ≤ 5 := by
    by_contra hc
    have h6 : (6 : ℤ) ≤ Rat.floor a := by omega
    have h6q : (6 : ℚ) ≤ a := by exact_mod_cast Rat.le_floor.mp h6
    linarith
  have hp : pyInt a = Rat.floor a := by rw [pyInt, if_neg h0]
  simp only [get_personalized_hint_core, hp]
  split_ifs <;> simp <;> omega

theorem hint_level_bounds_spec_witness :
    1 ≤ (get_personalized_hint_core
        { behavioral := [], performance := [],
          ai_interaction := [("avg_hint_level", 3), ("ai_dependency_score", 0.8)],
          temporal := [] } 1 0).suggested_level
    ∧ (get_personalized_hint_core
        { behavioral := [], performance := [],
          ai_interaction := [("avg_hint_level", 3), ("ai_dependency_score", 0.8)],
          temporal := [] } 1 0).suggested_level ≤ 5 :=
  hint_level_bounds_spec
    { behavioral := [], performance := [],
      ai_interaction := [("avg_hint_level", 3), ("ai_dependency_score", 0.8)],
      temporal := [] } 1 0
    (by norm_num [dictGetD, dictGet]) (by norm_num [dictGetD, dictGet])

theorem pyInt_seven : pyInt 7 = 7 := by
  rw [pyInt, if_neg (by norm_num)]
  have h : Rat.floor (7 : ℚ) = ⌊(7 : ℚ)⌋ := rfl
  rw [h]
  norm_num

/-- C9 counterexample: with an extracted `avg_hint_level` of 7 (dependency
and success rate at their defaults, first attempt, no time spent) the middle
branch returns the unclamped truncated average: suggested level 7, outside
[1,5] — refuting "always clamped to [1,5]". -/
theorem hint_level_unclamped_counterexample :
    (get_personalized_hint_core
      { behavioral := [], performance := [],
        ai_interaction := [("avg_hint_level", 7)], temporal := [] } 1 0).suggested_level = 7
    ∧ ¬((get_personalized_hint_core
      { behavioral := [], performance := [],
        ai_interaction := [("avg_hint_level", 7)], temporal := [] } 1 0).suggested_level ≤ 5) := by
  have h : (get_personalized_hint_core
      { behavioral := [], performance := [],
        ai_interaction := [("avg_hint_level", 7)], temporal := [] } 1 0).suggested_level = 7 := by
    simp [get_personalized_hint_core, dictGetD, dictGet, pyInt_seven]
    norm_num
  exact ⟨h, by rw [h]; norm_num⟩

/-- C10 (amended): success-prediction results carry a `model_version` string
on every path (the bound version tag on the heuristic path, `default` on the
degraded path); heuristic anomaly and path results are tagged
`heuristic-v1`; but the default anomaly result and default learning-path
result returned when extraction fails carry NO `model_version` key. -/
theorem model_version_tagging :
    ∀ (mv : String) (f : Features) (n : ℕ) (msg : String) (uh : Bool)
      (dc : Features → Except String AnomalyResult)
      (pc : Features → Except String PathResult),
      (predict_with_heuristics mv f).model_version = mv
      ∧ default_prediction.model_version = "default"
      ∧ (detect_with_heuristics f).model_version = some "heuristic-v1"
      ∧ (get_path_with_heuristics f n).model_version = some "heuristic-v1"
      ∧ (detect_anomalies (ExtractOutcome.err msg) uh dc).model_version = none
      ∧ (get_optimal_path (ExtractOutcome.err msg) uh pc n).model_version = none :=
  fun _ _ _ _ _ _ _ => ⟨rfl, rfl, rfl, rfl, rfl, rfl⟩

/-- C10 counterexample: when extraction fails, `detect_anomalies` and
`get_optimal_path` return their default dicts, which contain no
`model_version` key — refuting "every result on every code path contains a
model_version string". -/
theorem model_version_missing_counterexample :
    detect_anomalies (ExtractOutcome.err "record source unavailable") true
        (fun _ => Except.error "") = default_anomaly_result
    ∧ default_anomaly_result.model_version = none
    ∧ get_optimal_path (ExtractOutcome.err "record source unavailable") true
        (fun _ => Except.error "") 5 = default_learning_path
    ∧ default_learning_path.model_version = none :=
  ⟨rfl, rfl, rfl, rfl⟩
